import Mathlib

/-!
Verification of the fast-check fragment: the `integer` arbitrary constructor
(`src/packages/fast-check/src/arbitrary/integer.ts`) and the worker-side
message handler (`src/packages/worker/src/internals/worker-runner/WorkerRunner.ts`).

JavaScript numbers occurring as constraint bounds are modelled as rationals
(`ℚ`), so that non-integer bounds are expressible; `Number.isInteger` becomes
the test that the denominator is 1.  A computation that may throw is modelled
as an `Except` value whose `error` case is the thrown exception.
-/

namespace FastCheck

/-- Models `Number.isInteger` on finite JS numbers: a rational is an integer
exactly when its reduced denominator is 1. -/
def numberIsInteger (x : ℚ) : Bool :=
  x.den = 1

/-- Partial constraints accepted by `integer`: `{min?: number, max?: number}`.
An absent (or `undefined`) field is `none`. -/
structure IntegerConstraints where
  min : Option ℚ
  max : Option ℚ
  deriving DecidableEq, Repr

/-- Fully-set constraints, `Required<IntegerConstraints>`. -/
structure CompleteIntegerConstraints where
  min : ℚ
  max : ℚ
  deriving DecidableEq, Repr

/-- Models `buildCompleteIntegerConstraints`:
`min = constraints.min !== undefined ? constraints.min : -0x80000000` and
`max = constraints.max !== undefined ? constraints.max : 0x7fffffff`. -/
def buildCompleteIntegerConstraints (constraints : IntegerConstraints) :
    CompleteIntegerConstraints :=
  { min := match constraints.min with
      | some v => v
      | none => -0x80000000
    max := match constraints.max with
      | some v => v
      | none => 0x7fffffff }

/-- The bounds stored by `new IntegerArbitrary(min, max)`; the constructor
copies the two numbers into the instance. -/
structure IntegerArbitrary where
  min : ℚ
  max : ℚ
  deriving DecidableEq, Repr

/-- Models `integer(constraints)`: completes the constraints, performs the
three construction-time checks in source order, and otherwise returns
`new IntegerArbitrary(fullConstraints.min, fullConstraints.max)`.
A thrown `Error` is the `Except.error` case, carrying the message text. -/
def integer (constraints : IntegerConstraints) : Except String IntegerArbitrary :=
  let fullConstraints := buildCompleteIntegerConstraints constraints
  if fullConstraints.min > fullConstraints.max then
    Except.error "fc.integer maximum value should be equal or greater than the minimum one"
  else if ! numberIsInteger fullConstraints.min then
    Except.error "fc.integer minimum value should be an integer"
  else if ! numberIsInteger fullConstraints.max then
    Except.error "fc.integer maximum value should be an integer"
  else
    Except.ok { min := fullConstraints.min, max := fullConstraints.max }

/-- A single field read `constraints.min`, made explicit as a state-passing
step on the constraints object: it returns the field value and leaves the
object untouched (property reads in the source never write; a write would be
a step returning an updated object). -/
def readMinField (s : IntegerConstraints) : Option ℚ × IntegerConstraints :=
  (s.min, s)

/-- A single field read `constraints.max`, state-passing form. -/
def readMaxField (s : IntegerConstraints) : Option ℚ × IntegerConstraints :=
  (s.max, s)

/-- `buildCompleteIntegerConstraints` with the constraints object threaded as
explicit mutable state: each property access of the source is one read step,
and the source performs no writes to the argument. -/
def buildCompleteIntegerConstraintsSt (s0 : IntegerConstraints) :
    CompleteIntegerConstraints × IntegerConstraints :=
  let r1 := readMinField s0
  let r2 := readMaxField r1.2
  ({ min := match r1.1 with
       | some v => v
       | none => -0x80000000
     max := match r2.1 with
       | some v => v
       | none => 0x7fffffff }, r2.2)

/-- `integer` with the constraints object threaded as explicit mutable state;
the final state is returned on every path, including the throwing ones. -/
def integerSt (s0 : IntegerConstraints) :
    Except String IntegerArbitrary × IntegerConstraints :=
  let r := buildCompleteIntegerConstraintsSt s0
  let fullConstraints := r.1
  if fullConstraints.min > fullConstraints.max then
    (Except.error "fc.integer maximum value should be equal or greater than the minimum one", r.2)
  else if ! numberIsInteger fullConstraints.min then
    (Except.error "fc.integer minimum value should be an integer", r.2)
  else if ! numberIsInteger fullConstraints.max then
    (Except.error "fc.integer maximum value should be an integer", r.2)
  else
    (Except.ok { min := fullConstraints.min, max := fullConstraints.max }, r.2)

/-!
Worker-side message handler, from `WorkerRunner.ts`.

`Ts` is the tuple type of predicate inputs, `S` the reconstructable value
state (`ValueState`), `ε` the type of thrown/rejected JS error values, and
`α` the settled output of the predicate (`boolean | void`, instantiated as
`Option Bool` in concrete scenarios, with `none` standing for `undefined`).
-/

variable {Ts S ε α : Type}

/-- A settled JS promise: either fulfilled with a value or rejected with an
error. -/
inductive Promise (ε α : Type) where
  | resolved (value : α)
  | rejected (error : ε)
  deriving DecidableEq, Repr

/-- The observable behaviour of one call of a JS predicate: it either throws
synchronously, or returns; a returned plain value `v` is identified with the
already-fulfilled promise `resolved v`, matching `Promise.resolve`. -/
inductive PredicateResult (ε α : Type) where
  | throwsSync (error : ε)
  | returns (promise : Promise ε α)
  deriving DecidableEq, Repr

/-- `PropertyPredicate<Ts>`: a predicate together with the behaviour of each
of its calls. -/
def PropertyPredicate (Ts ε α : Type) : Type :=
  Ts → PredicateResult ε α

/-- `Payload<Ts>`: either materialized inputs (`{source:'main', value}`) or a
reconstructable value state (`{source:'state', ...}`). -/
inductive Payload (Ts S : Type) where
  | main (value : Ts)
  | state (valueState : S)
  deriving DecidableEq, Repr

/-- `MainThreadToWorkerMessage`: the orchestrator-to-worker message,
destructured in the handler as `{ payload, targetPredicateId, runId }`. -/
structure MainThreadToWorkerMessage (P : Type) where
  payload : P
  targetPredicateId : Nat
  runId : Nat
  deriving DecidableEq, Repr

/-- `WorkerToMainThreadMessage`: `{success:true, output, runId}` or
`{success:false, error, runId}`. -/
inductive WorkerToMainThreadMessage (ε α : Type) where
  | succeeded (output : α) (runId : Nat)
  | failed (error : ε) (runId : Nat)
  deriving DecidableEq, Repr

/-- The `runId` field carried by a worker-to-main message. -/
def WorkerToMainThreadMessage.runId : WorkerToMainThreadMessage ε α → Nat
  | .succeeded _ r => r
  | .failed _ r => r

/-- Models `wrapAndRunAsPromise`: `try { return Promise.resolve(predicate(...inputs)) }
catch (err) { return Promise.reject(err) }` — a synchronous throw becomes a
rejected promise, a returned value or promise is adopted unchanged. -/
def wrapAndRunAsPromise (predicate : PropertyPredicate Ts ε α) (inputs : Ts) :
    Promise ε α :=
  match predicate inputs with
  | .throwsSync err => Promise.rejected err
  | .returns p => p

/-- The two `.then` continuations of the handler: the settled promise is
turned into the single posted message, tagged with the captured `runId`. -/
def settlePromise (p : Promise ε α) (runId : Nat) : WorkerToMainThreadMessage ε α :=
  match p with
  | .resolved output => WorkerToMainThreadMessage.succeeded output runId
  | .rejected error => WorkerToMainThreadMessage.failed error runId

/-- Models the `'message'` listener installed by `runWorker`: given the
registered `predicateId`, the `predicate`, and `buildInputs` (which, being an
arbitrary user function, may itself throw — hence `Except ε Ts`), it maps one
incoming message to the list of messages the worker posts for it.  The
`Except.error` case is an exception escaping the listener (nothing posted);
`Except.ok l` means the listener returns normally and `l` is eventually
posted. -/
def runWorkerOnMessage (predicateId : Nat) (predicate : PropertyPredicate Ts ε α)
    (buildInputs : S → Except ε Ts)
    (message : MainThreadToWorkerMessage (Payload Ts S)) :
    Except ε (List (WorkerToMainThreadMessage ε α)) :=
  if message.targetPredicateId ≠ predicateId then
    Except.ok []
  else
    (match message.payload with
      | .main value => Except.ok value
      | .state s => buildInputs s).bind
      (fun inputs =>
        Except.ok [settlePromise (wrapAndRunAsPromise predicate inputs) message.runId])

/-- Lifts a `buildInputs` of the declared source type `(state: ValueState) => Ts`
— a function that returns normally on every state — into the throwing-aware
form used by `runWorkerOnMessage`. -/
def totalBuildInputs (buildInputs : S → Ts) : S → Except ε Ts :=
  fun s => Except.ok (buildInputs s)

/-- The predicate of end-to-end scenario C, instantiated at `Ts = List Nat`,
`ε = String`, `α = Option Bool` (`none` is `undefined`): the reconstructed
inputs satisfy it and it settles successfully with value `undefined`. -/
def scenarioCPredicate : PropertyPredicate (List Nat) String (Option Bool) :=
  fun _ => PredicateResult.returns (Promise.resolved none)

/-- The input-reconstruction function of scenario C: rebuilds the inputs from
the state descriptor, never throwing. -/
def scenarioCBuildInputs : Nat → Except String (List Nat) :=
  fun s => Except.ok [s]

/-- The `RunMessage{predicateId:1, runId:100, payload:{source:"state", ...}}`
of scenario C. -/
def scenarioCMessage : MainThreadToWorkerMessage (Payload (List Nat) Nat) :=
  { payload := Payload.state 42, targetPredicateId := 1, runId := 100 }

theorem settlePromise_runId (p : Promise ε α) (r : Nat) :
    (settlePromise p r).runId = r := by
  cases p <;> rfl

theorem numberIsInteger_ofNatCast (n : ℤ) : numberIsInteger (n : ℚ) = true := by
  simp [numberIsInteger]

/-- Claim C7: when `constraints.min` is omitted, `integer` uses `-2^31` as the
lower bound, when `constraints.max` is omitted it uses `2^31 - 1` as the upper
bound, and explicitly provided bounds are used unchanged. -/
theorem buildComplete_defaults (c : IntegerConstraints) :
    (c.min = none → (buildCompleteIntegerConstraints c).min = -2147483648)
    ∧ (c.max = none → (buildCompleteIntegerConstraints c).max = 2147483647)
    ∧ (∀ v : ℚ, c.min = some v → (buildCompleteIntegerConstraints c).min = v)
    ∧ (∀ v : ℚ, c.max = some v → (buildCompleteIntegerConstraints c).max = v) := by
  obtain ⟨mn, mx⟩ := c
  refine ⟨fun h => ?_, fun h => ?_, fun v h => ?_, fun v h => ?_⟩ <;>
    simp_all [buildCompleteIntegerConstraints]

/-- Witness for C7 at concrete constraints: omitted bounds default, provided
bounds pass through. -/
theorem buildComplete_defaults_witness :
    (buildCompleteIntegerConstraints { min := none, max := some 9 }).min = -2147483648
    ∧ (buildCompleteIntegerConstraints { min := some 7, max := none }).max = 2147483647
    ∧ (buildCompleteIntegerConstraints { min := some 7, max := none }).min = 7 :=
  ⟨(buildComplete_defaults { min := none, max := some 9 }).1 rfl,
   (buildComplete_defaults { min := some 7, max := none }).2.1 rfl,
   (buildComplete_defaults { min := some 7, max := none }).2.2.1 7 rfl⟩

/-- Claim C3: `integer(constraints)` throws at construction time if and only
if, after applying defaults, `min > max` or `min` is not an integer or `max`
is not an integer; otherwise it returns an `IntegerArbitrary` built with
exactly the defaulted `min` and `max`. -/
theorem integer_fail_fast (c : IntegerConstraints) :
    ((∃ e, integer c = Except.error e) ↔
      ((buildCompleteIntegerConstraints c).min > (buildCompleteIntegerConstraints c).max
        ∨ numberIsInteger (buildCompleteIntegerConstraints c).min = false
        ∨ numberIsInteger (buildCompleteIntegerConstraints c).max = false))
    ∧ (¬ ((buildCompleteIntegerConstraints c).min > (buildCompleteIntegerConstraints c).max
          ∨ numberIsInteger (buildCompleteIntegerConstraints c).min = false
          ∨ numberIsInteger (buildCompleteIntegerConstraints c).max = false) →
        integer c = Except.ok
          { min := (buildCompleteIntegerConstraints c).min
            max := (buildCompleteIntegerConstraints c).max }) := by
  by_cases h1 :
      (buildCompleteIntegerConstraints c).min > (buildCompleteIntegerConstraints c).max
  · simp [integer, h1]
  · cases h2 : numberIsInteger (buildCompleteIntegerConstraints c).min
    · simp [integer, h1, h2]
    · cases h3 : numberIsInteger (buildCompleteIntegerConstraints c).max
      · simp [integer, h1, h2, h3]
      · simp [integer, h1, h2, h3]

/-- Witness for C3: `integer({min:5, max:2})` throws, and
`integer({min:0, max:10})` returns the arbitrary with bounds 0 and 10. -/
theorem integer_fail_fast_witness :
    (∃ e, integer { min := some 5, max := some 2 } = Except.error e)
    ∧ integer { min := some 0, max := some 10 }
        = Except.ok { min := 0, max := 10 } :=
  ⟨(integer_fail_fast { min := some 5, max := some 2 }).1.mpr (by decide),
   (integer_fail_fast { min := some 0, max := some 10 }).2 (by decide)⟩

theorem buildCompleteSt_run (c : IntegerConstraints) :
    buildCompleteIntegerConstraintsSt c = (buildCompleteIntegerConstraints c, c) :=
  rfl

theorem integerSt_run (c : IntegerConstraints) : integerSt c = (integer c, c) := by
  simp only [integerSt, integer, buildCompleteSt_run]
  by_cases h1 :
      (buildCompleteIntegerConstraints c).min > (buildCompleteIntegerConstraints c).max
  · simp [h1]
  · cases h2 : numberIsInteger (buildCompleteIntegerConstraints c).min
    · simp [h1, h2]
    · cases h3 : numberIsInteger (buildCompleteIntegerConstraints c).max <;>
        simp [h1, h2, h3]

/-- Claim C10: `integer(constraints)` does not modify its argument — after the
call (throwing or not) the constraints object's `min` and `max` fields are
exactly what they were before — its result is the same as the pure function
of the field values read at call time, and the returned arbitrary depends
only on those values, so later mutation of the constraints object cannot
affect it. -/
theorem integer_no_mutation (c : IntegerConstraints) :
    (integerSt c).2 = c
    ∧ (integerSt c).1 = integer c
    ∧ (∀ c1 c2 : IntegerConstraints, c1.min = c2.min → c1.max = c2.max →
        integer c1 = integer c2) := by
  refine ⟨by rw [integerSt_run], by rw [integerSt_run], fun c1 c2 hmin hmax => ?_⟩
  obtain ⟨mn1, mx1⟩ := c1
  obtain ⟨mn2, mx2⟩ := c2
  cases hmin
  cases hmax
  rfl

/-- Witness for C10 at concrete constraints, on a throwing path and on a
successful path. -/
theorem integer_no_mutation_witness :
    (integerSt { min := some 5, max := some 2 }).2
        = { min := some 5, max := some 2 }
    ∧ integer { min := some 1, max := some 9 }
        = integer { min := some 1, max := some 9 } :=
  ⟨(integer_no_mutation { min := some 5, max := some 2 }).1,
   (integer_no_mutation { min := some 1, max := some 9 }).2.2
     { min := some 1, max := some 9 } { min := some 1, max := some 9 } rfl rfl⟩

/-- Claim C1: for every message accepted by the worker (its predicate-identity
field equals the registered `predicateId`), with the predicate and the
input-reconstruction function of their declared types, the worker posts
exactly one response, and that response's `runId` equals the accepted
message's `runId` — the tag is captured per message, independent of any other
in-flight run or settlement order. -/
theorem runWorker_responds_once (predicateId : Nat)
    (predicate : PropertyPredicate Ts ε α) (buildInputs : S → Ts)
    (message : MainThreadToWorkerMessage (Payload Ts S))
    (h : message.targetPredicateId = predicateId) :
    ∃ response : WorkerToMainThreadMessage ε α,
      runWorkerOnMessage predicateId predicate (totalBuildInputs buildInputs) message
        = Except.ok [response]
      ∧ response.runId = message.runId := by
  obtain ⟨payload, tid, rid⟩ := message
  simp only at h
  cases payload with
  | main value =>
    exact ⟨settlePromise (wrapAndRunAsPromise predicate value) rid,
      by simp [runWorkerOnMessage, totalBuildInputs, h, Except.bind],
      settlePromise_runId _ _⟩
  | state s =>
    exact ⟨settlePromise (wrapAndRunAsPromise predicate (buildInputs s)) rid,
      by simp [runWorkerOnMessage, totalBuildInputs, h, Except.bind],
      settlePromise_runId _ _⟩

/-- Witness for C1: a concrete accepted message gets exactly one response
tagged with its own `runId`. -/
theorem runWorker_responds_once_witness :
    ∃ response : WorkerToMainThreadMessage String (Option Bool),
      runWorkerOnMessage 3
          (fun _ : List Nat => PredicateResult.returns (Promise.resolved (some true)))
          (totalBuildInputs fun s : Nat => [s])
          { payload := Payload.main [1, 2], targetPredicateId := 3, runId := 7 }
        = Except.ok [response]
      ∧ response.runId = 7 :=
  runWorker_responds_once 3
    (fun _ : List Nat => PredicateResult.returns (Promise.resolved (some true)))
    (fun s : Nat => [s])
    { payload := Payload.main [1, 2], targetPredicateId := 3, runId := 7 } rfl

/-- Claim C2: for fixed inputs and an error value `e`, a synchronously
throwing predicate and a predicate returning a rejected promise yield the
same wrapped promise, and on an accepted message both make the worker post
the identical failure response `{success:false, error:e, runId}`; in both
cases the handler result is `Except.ok` — no exception escapes the
predicate-invocation scope. -/
theorem syncThrow_matches_asyncReject (predicateId : Nat) (e : ε)
    (buildInputs : S → Ts) (message : MainThreadToWorkerMessage (Payload Ts S))
    (h : message.targetPredicateId = predicateId) :
    (∀ inputs : Ts,
        wrapAndRunAsPromise (fun _ => PredicateResult.throwsSync (α := α) e) inputs
          = wrapAndRunAsPromise (fun _ => PredicateResult.returns (Promise.rejected e)) inputs)
    ∧ runWorkerOnMessage predicateId (fun _ => PredicateResult.throwsSync (α := α) e)
        (totalBuildInputs buildInputs) message
        = Except.ok [WorkerToMainThreadMessage.failed e message.runId]
    ∧ runWorkerOnMessage predicateId
        (fun _ => PredicateResult.returns (Promise.rejected (α := α) e))
        (totalBuildInputs buildInputs) message
        = Except.ok [WorkerToMainThreadMessage.failed e message.runId] := by
  obtain ⟨payload, tid, rid⟩ := message
  simp only at h
  refine ⟨fun inputs => rfl, ?_, ?_⟩ <;>
    cases payload <;>
      simp [runWorkerOnMessage, totalBuildInputs, h, wrapAndRunAsPromise, settlePromise, Except.bind]

/-- Witness for C2: concrete accepted messages, the sync-throw and the
rejected-promise predicate both post the same single failure response. -/
theorem syncThrow_matches_asyncReject_witness :
    runWorkerOnMessage 2
        (fun _ : List Nat => PredicateResult.throwsSync (α := Option Bool) "boom")
        (totalBuildInputs fun s : Nat => [s])
        { payload := Payload.state 5, targetPredicateId := 2, runId := 11 }
      = Except.ok [WorkerToMainThreadMessage.failed "boom" 11]
    ∧ runWorkerOnMessage 2
        (fun _ : List Nat => PredicateResult.returns (Promise.rejected (α := Option Bool) "boom"))
        (totalBuildInputs fun s : Nat => [s])
        { payload := Payload.state 5, targetPredicateId := 2, runId := 11 }
      = Except.ok [WorkerToMainThreadMessage.failed "boom" 11] :=
  ⟨(syncThrow_matches_asyncReject 2 "boom" (fun s : Nat => [s])
      { payload := Payload.state 5, targetPredicateId := 2, runId := 11 } rfl).2.1,
   (syncThrow_matches_asyncReject 2 "boom" (fun s : Nat => [s])
      { payload := Payload.state 5, targetPredicateId := 2, runId := 11 } rfl).2.2⟩

/-- Claim C4: a message whose predicate-identity field differs from the
registered id causes no action at all — for every predicate and every
input-reconstruction function (even ones that would throw), the handler
returns normally having posted nothing. -/
theorem ignored_message_no_action (predicateId : Nat)
    (message : MainThreadToWorkerMessage (Payload Ts S))
    (h : message.targetPredicateId ≠ predicateId) :
    ∀ (predicate : PropertyPredicate Ts ε α) (buildInputs : S → Except ε Ts),
      runWorkerOnMessage predicateId predicate buildInputs message = Except.ok [] := by
  intro predicate buildInputs
  simp [runWorkerOnMessage, h]

/-- Witness for C4: a concrete mismatched message is ignored even though its
`buildInputs` throws on every state. -/
theorem ignored_message_no_action_witness :
    runWorkerOnMessage 1
        (fun _ : List Nat => PredicateResult.throwsSync (α := Option Bool) "never called")
        (fun _ : Nat => Except.error "never called either")
        { payload := Payload.state 0, targetPredicateId := 2, runId := 4 }
      = Except.ok [] :=
  ignored_message_no_action 1
    { payload := Payload.state 0, targetPredicateId := 2, runId := 4 } (by decide)
    (fun _ : List Nat => PredicateResult.throwsSync (α := Option Bool) "never called")
    (fun _ : Nat => Except.error "never called either")

/-- Claim C5: on an accepted message the predicate's inputs are chosen by the
payload's source tag — for `{source:"main"}` the predicate runs on exactly
`payload.value`, and for `{source:"state"}` it runs on exactly
`buildInputs(payload)`. -/
theorem runWorker_input_selection (predicateId : Nat)
    (predicate : PropertyPredicate Ts ε α) (buildInputs : S → Except ε Ts)
    (message : MainThreadToWorkerMessage (Payload Ts S))
    (h : message.targetPredicateId = predicateId) :
    (∀ value : Ts, message.payload = Payload.main value →
        runWorkerOnMessage predicateId predicate buildInputs message
          = Except.ok [settlePromise (wrapAndRunAsPromise predicate value) message.runId])
    ∧ (∀ s : S, message.payload = Payload.state s →
        runWorkerOnMessage predicateId predicate buildInputs message
          = (buildInputs s).bind (fun inputs =>
              Except.ok [settlePromise (wrapAndRunAsPromise predicate inputs) message.runId])) := by
  obtain ⟨payload, tid, rid⟩ := message
  simp only at h
  constructor
  · intro value hv
    simp only at hv
    subst hv
    simp [runWorkerOnMessage, h, Except.bind]
  · intro s hs
    simp only at hs
    subst hs
    simp [runWorkerOnMessage, h]

/-- Witness for C5: on a concrete accepted main-payload message, the
predicate receives exactly the materialized inputs. -/
theorem runWorker_input_selection_witness :
    runWorkerOnMessage 6
        (fun _ : List Nat => PredicateResult.returns (Promise.rejected (α := Option Bool) "nope"))
        (fun _ : Nat => Except.ok ([] : List Nat))
        { payload := Payload.main [9], targetPredicateId := 6, runId := 13 }
      = Except.ok [settlePromise (wrapAndRunAsPromise
          (fun _ : List Nat => PredicateResult.returns (Promise.rejected (α := Option Bool) "nope")) [9]) 13] :=
  (runWorker_input_selection 6
    (fun _ : List Nat => PredicateResult.returns (Promise.rejected (α := Option Bool) "nope"))
    (fun _ : Nat => Except.ok ([] : List Nat))
    { payload := Payload.main [9], targetPredicateId := 6, runId := 13 } rfl).1 [9] rfl

/-- Claim C6: end-to-end scenario C — the message
`{predicateId:1, runId:100, payload:{source:"state", ...}}` dispatched to a
worker registered for predicate id 1 yields the single response
`{runId:100, success:true, output:undefined}` when the reconstructed inputs
satisfy the predicate, which settles successfully with `undefined`. -/
theorem scenarioC_success :
    runWorkerOnMessage 1 scenarioCPredicate scenarioCBuildInputs scenarioCMessage
      = Except.ok [WorkerToMainThreadMessage.succeeded none 100] :=
  rfl

/-- Claim C8: an orchestrator-to-worker message is exactly its three fields
`{payload, predicate identity, runId}`, and the handler's accept-versus-ignore
decision depends exactly on whether the message's predicate-identity field
equals the registered id: the behaviour is a function of the payload, the
`runId`, and that equality bit alone, ignoring with no action when the bit is
false. -/
theorem message_schema_and_filter (predicateId : Nat)
    (predicate : PropertyPredicate Ts ε α) (buildInputs : S → Except ε Ts)
    (m : MainThreadToWorkerMessage (Payload Ts S)) :
    (m = { payload := m.payload, targetPredicateId := m.targetPredicateId, runId := m.runId })
    ∧ (m.targetPredicateId ≠ predicateId →
        runWorkerOnMessage predicateId predicate buildInputs m = Except.ok [])
    ∧ (∀ m2 : MainThreadToWorkerMessage (Payload Ts S),
        m.payload = m2.payload → m.runId = m2.runId →
        ((m.targetPredicateId = predicateId) ↔ (m2.targetPredicateId = predicateId)) →
        runWorkerOnMessage predicateId predicate buildInputs m
          = runWorkerOnMessage predicateId predicate buildInputs m2) := by
  obtain ⟨payload, tid, rid⟩ := m
  refine ⟨rfl, fun h => by simp [runWorkerOnMessage, h], ?_⟩
  intro m2 hp hr hiff
  obtain ⟨payload2, tid2, rid2⟩ := m2
  simp only at hp hr hiff
  subst hp
  subst hr
  by_cases h : tid = predicateId
  · rw [show tid = predicateId from h] at hiff ⊢
    rw [show tid2 = predicateId from hiff.mp rfl]
  · have h2 : tid2 ≠ predicateId := fun hc => h (hiff.mpr hc)
    simp [runWorkerOnMessage, h, h2]

/-- Witness for C8: two concrete messages agreeing on payload, runId and the
(false) equality bit get the same (empty) handler behaviour. -/
theorem message_schema_and_filter_witness :
    runWorkerOnMessage 1
        (fun _ : List Nat => PredicateResult.throwsSync (α := Option Bool) "x")
        (fun s : Nat => Except.ok [s])
        { payload := Payload.state 8, targetPredicateId := 2, runId := 3 }
      = runWorkerOnMessage 1
          (fun _ : List Nat => PredicateResult.throwsSync (α := Option Bool) "x")
          (fun s : Nat => Except.ok [s])
          { payload := Payload.state 8, targetPredicateId := 5, runId := 3 } :=
  (message_schema_and_filter 1
    (fun _ : List Nat => PredicateResult.throwsSync (α := Option Bool) "x")
    (fun s : Nat => Except.ok [s])
    { payload := Payload.state 8, targetPredicateId := 2, runId := 3 }).2.2
    { payload := Payload.state 8, targetPredicateId := 5, runId := 3 }
    rfl rfl (by decide)

/-- Claim C9: when an accepted message carries a `{source:"state"}` payload
and `buildInputs` throws while reconstructing the inputs, the worker posts no
response for that message — the exception escapes the message handler instead
of being converted into a failure response. -/
theorem buildInputs_throw_escapes (predicateId : Nat)
    (predicate : PropertyPredicate Ts ε α) (buildInputs : S → Except ε Ts)
    (message : MainThreadToWorkerMessage (Payload Ts S)) (s : S) (e : ε)
    (h : message.targetPredicateId = predicateId)
    (hp : message.payload = Payload.state s)
    (hb : buildInputs s = Except.error e) :
    runWorkerOnMessage predicateId predicate buildInputs message = Except.error e := by
  obtain ⟨payload, tid, rid⟩ := message
  simp only at h hp
  subst hp
  simp [runWorkerOnMessage, h, hb, Except.bind]

/-- Witness for C9: a concrete accepted state-payload message whose
`buildInputs` throws produces no response, only the escaping exception. -/
theorem buildInputs_throw_escapes_witness :
    runWorkerOnMessage 4
        (fun _ : List Nat => PredicateResult.returns (Promise.resolved (some true)))
        (fun _ : Nat => Except.error (α := List Nat) "reconstruction failed")
        { payload := Payload.state 77, targetPredicateId := 4, runId := 21 }
      = Except.error "reconstruction failed" :=
  buildInputs_throw_escapes 4
    (fun _ : List Nat => PredicateResult.returns (Promise.resolved (some true)))
    (fun _ : Nat => Except.error (α := List Nat) "reconstruction failed")
    { payload := Payload.state 77, targetPredicateId := 4, runId := 21 } 77
    "reconstruction failed" rfl rfl rfl

end FastCheck
